import Mathlib

/-!
# A shallow embedding of the `decentrablog` NEAR contract (`src/contract/src/lib.rs`)

The contract state (`Blog`) and every public method are translated directly
from the Rust source.  Modelling conventions:

* `AccountId` is `String`, `U64`/`u64` counters and ids are `Nat` guarded by
  `U64_MOD = 2 ^ 64`, `u128` amounts are `Nat`.  NEAR contract builds enable
  `overflow-checks`, so `u64` addition/subtraction that leaves the range is a
  panic; a panic aborts the whole call and rolls every write back, so each
  method is a total function `... → Except BlogError Blog` where an
  `Except.error` result means "the call trapped and the state is unchanged".
* `near_sdk::collections::UnorderedMap` is an association list with unique
  keys; `get` deserializes the stored bytes and returns a *detached owned
  copy* of the value.  Mutating that copy (for example
  `self.posts.get(&post_id).unwrap().comments.push(comment)`) writes to a
  temporary that is dropped without ever being re-`insert`ed, so the stored
  entry is unchanged.  The embedding therefore drops those writes, exactly as
  the deployed code does.
* `env::signer_account_id()`, `env::block_timestamp()`,
  `env::account_balance()` and the attached deposit are fields of an `Env`
  value passed to each method.
* Rust `String::len` is the UTF-8 byte length, embedded as
  `String.utf8ByteSize`.
-/

set_option linter.unusedVariables false

def U64_MOD : Nat := 2 ^ 64

/-- Host-supplied ambient values read through `near_sdk::env`. -/
structure Env where
  signer_account_id : String
  block_timestamp : Nat
  account_balance : Nat
  attached_deposit : Nat
deriving DecidableEq

/-- `struct Comment` from the source. -/
structure Comment where
  comment_id : Nat
  body : String
  author : String
  created_at : Nat
deriving DecidableEq

/-- `struct DonationLog` from the source. -/
structure DonationLog where
  donation_id : Nat
  amount : Nat
  donor : String
  created_at : Nat
  message : String
deriving DecidableEq

/-- `struct Post` from the source. -/
structure Post where
  post_id : Nat
  title : String
  body : String
  author : String
  created_at : Nat
  comments : List Comment
  upvotes : List String
  downvotes : List String
  donation_logs : List DonationLog
deriving DecidableEq

/-- `struct Blog` from the source: the whole contract state. -/
structure Blog where
  owner : String
  user_posts : List (String × List Nat)
  posts : List (Nat × Post)
  next_post_id : Nat
  total_posts : Nat
  next_comment_id : Nat
  total_comments : Nat
  next_donation_id : Nat
  total_donations : Nat
deriving DecidableEq

/-- Errors: each `assert!`/`unwrap()` panic site of the source, named after
the spec's error taxonomy (§7).  `overflow`/`underflow` are the
`overflow-checks` traps on `u64` arithmetic, `indexOutOfBounds` is the
`Vec::remove` out-of-range panic. -/
inductive BlogError where
  | notFound
  | unauthorized
  | validationError
  | insufficientFunds
  | underflow
  | overflow
  | indexOutOfBounds
deriving DecidableEq

instance {ε α : Type} [DecidableEq ε] [DecidableEq α] : DecidableEq (Except ε α) := fun x y =>
  match x, y with
  | .ok a, .ok b =>
    if h : a = b then isTrue (by rw [h]) else isFalse (fun he => h (Except.ok.inj he))
  | .error a, .error b =>
    if h : a = b then isTrue (by rw [h]) else isFalse (fun he => h (Except.error.inj he))
  | .ok _, .error _ => isFalse (fun he => Except.noConfusion he)
  | .error _, .ok _ => isFalse (fun he => Except.noConfusion he)

/-- `UnorderedMap::get`: first entry with the given key, a detached copy. -/
def umGet {α β : Type} [DecidableEq α] : List (α × β) → α → Option β
  | [], _ => none
  | (a, v) :: t, k => if a = k then some v else umGet t k

/-- `UnorderedMap::insert`: replace the entry for the key, or append it. -/
def umInsert {α β : Type} [DecidableEq α] : List (α × β) → α → β → List (α × β)
  | [], k, v => [(k, v)]
  | (a, w) :: t, k, v => if a = k then (k, v) :: t else (a, w) :: umInsert t k v

/-- `UnorderedMap::remove`: drop the entry for the key (a no-op if absent). -/
def umRemove {α β : Type} [DecidableEq α] : List (α × β) → α → List (α × β)
  | [], _ => []
  | (a, w) :: t, k => if a = k then t else (a, w) :: umRemove t k

/-- The `Post` value built inside `create_post`. -/
def newPost (env : Env) (pid : Nat) (title body : String) : Post :=
  { post_id := pid
    title := title
    body := body
    author := env.signer_account_id
    created_at := env.block_timestamp
    comments := []
    upvotes := []
    downvotes := []
    donation_logs := [] }

/-- `Blog::default()`: empty maps, all counters zero, owner = deploying
signer. -/
def Blog.init (owner : String) : Blog :=
  { owner := owner
    user_posts := []
    posts := []
    next_post_id := 0
    total_posts := 0
    next_comment_id := 0
    total_comments := 0
    next_donation_id := 0
    total_donations := 0 }

/-- `Blog::create_post`: insert the new post under `next_post_id`, then
`total_posts += 1` and `next_post_id += 1` (checked `u64` additions).
`user_posts` is never touched. -/
def create_post (env : Env) (b : Blog) (title body : String) : Except BlogError Blog :=
  if b.total_posts + 1 < U64_MOD then
    if b.next_post_id + 1 < U64_MOD then
      .ok { b with
            posts := umInsert b.posts b.next_post_id (newPost env b.next_post_id title body)
            total_posts := b.total_posts + 1
            next_post_id := b.next_post_id + 1 }
    else .error .overflow
  else .error .overflow

/-- `Blog::get_owner`. -/
def get_owner (b : Blog) : String :=
  b.owner

/-- `Blog::get_post`: `self.posts.get(&post_id).unwrap()` — panics
(`notFound`) if the key is absent. -/
def get_post (b : Blog) (post_id : Nat) : Except BlogError Post :=
  match umGet b.posts post_id with
  | none => .error .notFound
  | some p => .ok p

/-- Resolution loop of `Blog::get_posts`: each stored id is looked up with
`.unwrap()`, so a stale id panics (`notFound`). -/
def lookupPosts (b : Blog) : List Nat → Except BlogError (List Post)
  | [] => .ok []
  | pid :: rest =>
    match umGet b.posts pid with
    | none => .error .notFound
    | some p =>
      match lookupPosts b rest with
      | .ok ps => .ok (p :: ps)
      | .error e => .error e

/-- `Blog::get_posts`: `self.user_posts.get(&signer).unwrap()` — panics
(`notFound`) when the caller has no index entry. -/
def get_posts (env : Env) (b : Blog) : Except BlogError (List Post) :=
  match umGet b.user_posts env.signer_account_id with
  | none => .error .notFound
  | some ids => lookupPosts b ids

/-- `Blog::get_total_posts`. -/
def get_total_posts (b : Blog) : Nat :=
  b.total_posts

/-- `Blog::get_next_post_id`. -/
def get_next_post_id (b : Blog) : Nat :=
  b.next_post_id

/-- `Blog::delete_post`: owner gate (`assert_eq!(self.owner, signer)`), then
`posts.remove(&post_id)` (no existence check) and the checked subtraction
`total_posts - 1`, which traps when `total_posts == 0`. -/
def delete_post (env : Env) (b : Blog) (post_id : Nat) : Except BlogError Blog :=
  if b.owner = env.signer_account_id then
    if 0 < b.total_posts then
      .ok { b with
            posts := umRemove b.posts post_id
            total_posts := b.total_posts - 1 }
    else .error .underflow
  else .error .unauthorized

/-- `Blog::comment`: post must exist (`unwrap`, then
`assert!(post.post_id == post_id)`), body must be at least 10 bytes, then the
comment counters are bumped (checked additions).  The final
`self.posts.get(&post_id).unwrap().comments.push(comment)` pushes the new
`Comment` onto the detached copy returned by `get`, which is dropped without
being re-inserted: the stored post's `comments` list is unchanged, so the
result only differs from `b` in the two counters. -/
def comment (env : Env) (b : Blog) (post_id : Nat) (body : String) : Except BlogError Blog :=
  match umGet b.posts post_id with
  | none => .error .notFound
  | some post =>
    if post.post_id = post_id then
      if 10 ≤ body.utf8ByteSize then
        if b.next_comment_id + 1 < U64_MOD then
          if b.total_comments + 1 < U64_MOD then
            .ok { b with
                  next_comment_id := b.next_comment_id + 1
                  total_comments := b.total_comments + 1 }
          else .error .overflow
        else .error .overflow
      else .error .validationError
    else .error .notFound

/-- `Blog::delete_comment`: owner gate, post must exist, a comment whose
`comment_id` matches must be found, then
`self.posts.get(&post_id).unwrap().comments.remove(comment_id.0 as usize)`:
`Vec::remove` panics when the index is out of range, and otherwise removes
the element at position `comment_id` from the detached copy returned by
`get` — which is dropped, so the stored comment list is unchanged.  Finally
the checked subtraction `total_comments - 1` traps at zero.  (The
`u64 → usize` cast is modelled as the identity, as on the 64-bit target the
repository's own tests run on.) -/
def delete_comment (env : Env) (b : Blog) (post_id comment_id : Nat) : Except BlogError Blog :=
  if b.owner = env.signer_account_id then
    match umGet b.posts post_id with
    | none => .error .notFound
    | some post =>
      if post.post_id = post_id then
        match post.comments.find? (fun c => c.comment_id == comment_id) with
        | none => .error .notFound
        | some _ =>
          if comment_id < post.comments.length then
            if 0 < b.total_comments then
              .ok { b with total_comments := b.total_comments - 1 }
            else .error .underflow
          else .error .indexOutOfBounds
      else .error .notFound
  else .error .unauthorized

/-- The value transfer scheduled by `Promise::new(author).transfer(amount)`. -/
structure Transfer where
  recipient : String
  amount : Nat
deriving DecidableEq

/-- Outcome of the asynchronous transfer leg, reported by the host after
`donate` has already returned. -/
inductive TransferOutcome where
  | succeeded
  | failed
deriving DecidableEq

/-- `Blog::save_to_donation_log`: builds a `DonationLog` whose id is taken
from `next_comment_id` (not `next_donation_id`), bumps `next_comment_id` and
`total_comments` (not the donation counters; checked additions), and pushes
the log onto the detached copy from `self.posts.get(&post_id).unwrap()` —
also a panic point if the post is absent — which is dropped, so the stored
`donation_logs` list is unchanged.  `next_donation_id` and `total_donations`
are never written anywhere in the contract. -/
def save_to_donation_log (env : Env) (b : Blog) (post_id amount : Nat) (message : String) :
    Except BlogError Blog :=
  if b.next_comment_id + 1 < U64_MOD then
    if b.total_comments + 1 < U64_MOD then
      match umGet b.posts post_id with
      | none => .error .notFound
      | some _ =>
        .ok { b with
              next_comment_id := b.next_comment_id + 1
              total_comments := b.total_comments + 1 }
    else .error .overflow
  else .error .overflow

/-- `Blog::donate`: post must exist, `amount >= 1`, and
`env::account_balance() >= amount` — the check is against the contract
account's balance, not the attached deposit (`env.attached_deposit` is never
read even though the method is `#[payable]`).  Then
`Promise::new(author).transfer(amount).then(self.save_to_donation_log(...))`:
the argument of `.then` is an ordinary synchronous method call, so
`save_to_donation_log` runs *while the promise chain is being built*, before
the transfer executes; its state changes are committed with `donate` and the
scheduled `Transfer` is returned alongside. -/
def donate (env : Env) (b : Blog) (post_id amount : Nat) (message : String) :
    Except BlogError (Blog × Transfer) :=
  match umGet b.posts post_id with
  | none => .error .notFound
  | some post =>
    if post.post_id = post_id then
      if 1 ≤ amount then
        if amount ≤ env.account_balance then
          match save_to_donation_log env b post_id amount message with
          | .ok b' => .ok (b', { recipient := post.author, amount := amount })
          | .error e => .error e
        else .error .insufficientFunds
      else .error .validationError
    else .error .notFound

/-- The contract installs no callback on the transfer promise: the `.then`
continuation is the empty `Promise::new(donor)`, so when the host later
reports the transfer's outcome — success or failure — the contract state is
exactly the state `donate` committed.  No rollback, no `TransferFailed`
surfaced. -/
def settle_donation (b : Blog) (outcome : TransferOutcome) : Blog :=
  match outcome with
  | .succeeded => b
  | .failed => b

/-- One external call into the contract. -/
inductive Op where
  | createPost (env : Env) (title body : String)
  | deletePost (env : Env) (post_id : Nat)
  | addComment (env : Env) (post_id : Nat) (body : String)
  | deleteComment (env : Env) (post_id comment_id : Nat)
  | donateOp (env : Env) (post_id amount : Nat) (message : String)

/-- Execute one call: a panicking (erroring) call is rolled back by the NEAR
runtime, leaving the state unchanged. -/
def applyOp (b : Blog) : Op → Blog
  | .createPost env t body =>
    match create_post env b t body with
    | .ok b' => b'
    | .error _ => b
  | .deletePost env pid =>
    match delete_post env b pid with
    | .ok b' => b'
    | .error _ => b
  | .addComment env pid body =>
    match comment env b pid body with
    | .ok b' => b'
    | .error _ => b
  | .deleteComment env pid cid =>
    match delete_comment env b pid cid with
    | .ok b' => b'
    | .error _ => b
  | .donateOp env pid amount m =>
    match donate env b pid amount m with
    | .ok (b', _) => b'
    | .error _ => b

/-- Run a sequence of calls. -/
def runOps (b : Blog) (ops : List Op) : Blog :=
  ops.foldl applyOp b

/-- The post ids handed out by the successful `create_post` calls of a
trace, in order. -/
def postIdsIssued : Blog → List Op → List Nat
  | _, [] => []
  | b, op :: rest =>
    match op with
    | .createPost env t body =>
      match create_post env b t body with
      | .ok b' => b.next_post_id :: postIdsIssued b' rest
      | .error _ => postIdsIssued b rest
    | _ => postIdsIssued (applyOp b op) rest

/-- Number of live entries of `posts`. -/
def livePostCount (b : Blog) : Nat :=
  b.posts.length

/-- Sum over all live posts of their comment counts. -/
def liveCommentCount (b : Blog) : Nat :=
  (b.posts.map (fun kv => kv.2.comments.length)).sum

/-- Sum over all live posts of their donation-log counts. -/
def liveDonationCount (b : Blog) : Nat :=
  (b.posts.map (fun kv => kv.2.donation_logs.length)).sum

/-- The spec's count-consistency invariant I2/I4. -/
def countConsistent (b : Blog) : Prop :=
  b.total_posts = livePostCount b ∧
  b.total_comments = liveCommentCount b ∧
  b.total_donations = liveDonationCount b

/-! ### Concrete fixtures used by witnesses and counterexamples -/

def aliceEnv : Env :=
  { signer_account_id := "alice", block_timestamp := 7, account_balance := 100,
    attached_deposit := 0 }

def bobEnv : Env :=
  { signer_account_id := "bob", block_timestamp := 8, account_balance := 100,
    attached_deposit := 0 }

def oscarEnv : Env :=
  { signer_account_id := "oscar", block_timestamp := 9, account_balance := 100,
    attached_deposit := 0 }

/-- State after a single post was created on a fresh contract deployed by
`alice`. -/
def blogA : Blog :=
  runOps (Blog.init "alice") [Op.createPost aliceEnv "First post" "Hello world body"]

/-- Create one post, then add one (valid, 10-byte) comment to it. -/
def t2 : List Op :=
  [Op.createPost aliceEnv "First post" "Hello world body",
   Op.addComment aliceEnv 0 "ten chars!"]

/-- Create, delete the post, create again: ids 0 and 1 are issued. -/
def t8 : List Op :=
  [Op.createPost aliceEnv "First post" "Hello world body",
   Op.deletePost aliceEnv 0,
   Op.createPost aliceEnv "Second post" "Another body here"]

def postBob : Post :=
  { post_id := 0, title := "Bob post", body := "A body by bob", author := "bob",
    created_at := 1, comments := [], upvotes := [], downvotes := [], donation_logs := [] }

/-- Contract owned by `oscar` holding one post (id 0) by `bob`. -/
def blogDon : Blog :=
  { owner := "oscar", user_posts := [], posts := [(0, postBob)], next_post_id := 1,
    total_posts := 1, next_comment_id := 0, total_comments := 0, next_donation_id := 0,
    total_donations := 0 }

/-- `blogDon` after the comment counters were bumped once. -/
def blogDon1 : Blog :=
  { blogDon with next_comment_id := 1, total_comments := 1 }

def comW : Comment :=
  { comment_id := 0, body := "a ten-char comment", author := "alice", created_at := 2 }

def postW : Post :=
  { postBob with comments := [comW] }

/-- Count-consistent state: one post carrying one comment whose id (0) equals
its position. -/
def blogW : Blog :=
  { blogDon with posts := [(0, postW)], total_comments := 1 }

def com5 : Comment :=
  { comment_id := 5, body := "a ten-char comment", author := "alice", created_at := 2 }

def post5 : Post :=
  { postBob with comments := [com5] }

/-- Count-consistent state: one post carrying one comment whose id (5) does
not equal its position (0). -/
def blogC6 : Blog :=
  { blogDon with posts := [(0, post5)], total_comments := 1 }

/-- Reachable state where post 0 is live but `total_posts = 0`: the owner
deleted the absent id 7, which decremented the counter anyway. -/
def blogU : Blog :=
  runOps (Blog.init "oscar")
    [Op.createPost oscarEnv "First post" "Hello world body", Op.deletePost oscarEnv 7]

def c0 : Comment :=
  { comment_id := 0, body := "first ten chars", author := "alice", created_at := 2 }

def c1 : Comment :=
  { comment_id := 1, body := "second ten chars", author := "alice", created_at := 3 }

def postDel : Post :=
  { postBob with comments := [c0, c1] }

/-- Count-consistent state: one post carrying two comments with ids 0 and 1. -/
def blogDel : Blog :=
  { blogDon with posts := [(0, postDel)], total_comments := 2 }

/-- `blogDel` after `total_comments` was decremented once. -/
def blogDel1 : Blog :=
  { blogDel with total_comments := 1 }

/-! ### Helper lemmas: the exact successful result of each mutating method -/

/-- A successful `create_post` inserts the new post and bumps the two post
counters; nothing else changes. -/
theorem create_post_ok {env : Env} {b : Blog} {t bo : String} {b' : Blog}
    (h : create_post env b t bo = .ok b') :
    b' = { b with
           posts := umInsert b.posts b.next_post_id (newPost env b.next_post_id t bo)
           total_posts := b.total_posts + 1
           next_post_id := b.next_post_id + 1 } := by
  unfold create_post at h
  repeat' split at h
  all_goals first
    | exact (Except.ok.inj h).symm
    | exact Except.noConfusion h

/-- A successful `delete_post` removes the key and decrements `total_posts`;
nothing else changes. -/
theorem delete_post_ok {env : Env} {b : Blog} {pid : Nat} {b' : Blog}
    (h : delete_post env b pid = .ok b') :
    b' = { b with posts := umRemove b.posts pid, total_posts := b.total_posts - 1 } := by
  unfold delete_post at h
  repeat' split at h
  all_goals first
    | exact (Except.ok.inj h).symm
    | exact Except.noConfusion h

/-- A successful `comment` only bumps the two comment counters: the pushed
`Comment` goes to a dropped copy of the post. -/
theorem comment_ok {env : Env} {b : Blog} {pid : Nat} {s : String} {b' : Blog}
    (h : comment env b pid s = .ok b') :
    b' = { b with
           next_comment_id := b.next_comment_id + 1
           total_comments := b.total_comments + 1 } := by
  unfold comment at h
  repeat' split at h
  all_goals first
    | exact (Except.ok.inj h).symm
    | exact Except.noConfusion h

/-- A successful `delete_comment` only decrements `total_comments`: the
removal acts on a dropped copy of the post. -/
theorem delete_comment_ok {env : Env} {b : Blog} {pid cid : Nat} {b' : Blog}
    (h : delete_comment env b pid cid = .ok b') :
    b' = { b with total_comments := b.total_comments - 1 } := by
  unfold delete_comment at h
  repeat' split at h
  all_goals first
    | exact (Except.ok.inj h).symm
    | exact Except.noConfusion h

/-- A successful `save_to_donation_log` only bumps the two *comment*
counters. -/
theorem save_to_donation_log_ok {env : Env} {b : Blog} {pid amt : Nat} {m : String} {b' : Blog}
    (h : save_to_donation_log env b pid amt m = .ok b') :
    b' = { b with
           next_comment_id := b.next_comment_id + 1
           total_comments := b.total_comments + 1 } := by
  unfold save_to_donation_log at h
  repeat' split at h
  all_goals first
    | exact (Except.ok.inj h).symm
    | exact Except.noConfusion h

/-- A successful `donate` commits exactly the `save_to_donation_log` state
change. -/
theorem donate_ok {env : Env} {b : Blog} {pid amt : Nat} {m : String} {b' : Blog} {tr : Transfer}
    (h : donate env b pid amt m = .ok (b', tr)) :
    b' = { b with
           next_comment_id := b.next_comment_id + 1
           total_comments := b.total_comments + 1 } := by
  unfold donate at h
  repeat' split at h
  all_goals first
    | exact Except.noConfusion h
    | (injection h with hpair
       injection hpair with hfst hsnd
       subst hfst
       exact save_to_donation_log_ok (by assumption))

/-- Unfolding lemma for `runOps`. -/
theorem runOps_cons (b : Blog) (op : Op) (ops : List Op) :
    runOps b (op :: ops) = runOps (applyOp b op) ops := rfl

/-- No call ever writes to `user_posts`. -/
theorem applyOp_user_posts (b : Blog) (op : Op) :
    (applyOp b op).user_posts = b.user_posts := by
  cases op with
  | createPost env t bo =>
    simp only [applyOp]
    split
    · next b' h => rw [create_post_ok h]
    · rfl
  | deletePost env pid =>
    simp only [applyOp]
    split
    · next b' h => rw [delete_post_ok h]
    · rfl
  | addComment env pid s =>
    simp only [applyOp]
    split
    · next b' h => rw [comment_ok h]
    · rfl
  | deleteComment env pid cid =>
    simp only [applyOp]
    split
    · next b' h => rw [delete_comment_ok h]
    · rfl
  | donateOp env pid amt m =>
    simp only [applyOp]
    split
    · next b' tr h => rw [donate_ok h]
    · rfl

/-- Along any trace `user_posts` keeps its initial value. -/
theorem runOps_user_posts (ops : List Op) :
    ∀ b : Blog, (runOps b ops).user_posts = b.user_posts := by
  induction ops with
  | nil => intro b; rfl
  | cons op rest ih =>
    intro b
    rw [runOps_cons, ih, applyOp_user_posts]

/-- `next_post_id` never decreases across a call. -/
theorem applyOp_next_post_id_le (b : Blog) (op : Op) :
    b.next_post_id ≤ (applyOp b op).next_post_id := by
  cases op with
  | createPost env t bo =>
    simp only [applyOp]
    split
    · next b' h => rw [create_post_ok h]; exact Nat.le_succ _
    · exact Nat.le_refl _
  | deletePost env pid =>
    simp only [applyOp]
    split
    · next b' h => rw [delete_post_ok h]
    · exact Nat.le_refl _
  | addComment env pid s =>
    simp only [applyOp]
    split
    · next b' h => rw [comment_ok h]
    · exact Nat.le_refl _
  | deleteComment env pid cid =>
    simp only [applyOp]
    split
    · next b' h => rw [delete_comment_ok h]
    · exact Nat.le_refl _
  | donateOp env pid amt m =>
    simp only [applyOp]
    split
    · next b' tr h => rw [donate_ok h]
    · exact Nat.le_refl _

/-- `next_post_id` never decreases across a trace. -/
theorem runOps_next_post_id_le (ops : List Op) :
    ∀ b : Blog, b.next_post_id ≤ (runOps b ops).next_post_id := by
  induction ops with
  | nil => intro b; exact Nat.le_refl _
  | cons op rest ih =>
    intro b
    rw [runOps_cons]
    exact Nat.le_trans (applyOp_next_post_id_le b op) (ih (applyOp b op))

/-- Core invariant behind P1: along any trace the issued post ids are
strictly increasing, bounded below by the starting `next_post_id` and
strictly above by the final one. -/
theorem postIdsIssued_bounds (ops : List Op) :
    ∀ b : Blog,
      (postIdsIssued b ops).Pairwise (· < ·) ∧
      ∀ i ∈ postIdsIssued b ops,
        b.next_post_id ≤ i ∧ i < (runOps b ops).next_post_id := by
  induction ops with
  | nil =>
    intro b
    refine ⟨List.Pairwise.nil, ?_⟩
    intro i hi
    cases hi
  | cons op rest ih =>
    intro b
    cases op with
    | createPost env t bo =>
      simp only [postIdsIssued]
      cases hc : create_post env b t bo with
      | ok b' =>
        have hb' := create_post_ok hc
        have happly : applyOp b (Op.createPost env t bo) = b' := by
          simp only [applyOp, hc]
        have hrun : runOps b (Op.createPost env t bo :: rest) = runOps b' rest := by
          rw [runOps_cons, happly]
        have hnext : b'.next_post_id = b.next_post_id + 1 := by rw [hb']
        obtain ⟨hpw, hmem⟩ := ih b'
        refine ⟨?_, ?_⟩
        · refine List.Pairwise.cons ?_ hpw
          intro i hi
          have := (hmem i hi).1
          omega
        · intro i hi
          rcases List.mem_cons.mp hi with hhead | htail
          · subst hhead
            refine ⟨Nat.le_refl _, ?_⟩
            rw [hrun]
            have := runOps_next_post_id_le rest b'
            omega
          · obtain ⟨hlo, hhi⟩ := hmem i htail
            rw [hrun]
            constructor
            · omega
            · exact hhi
      | error e =>
        have happly : applyOp b (Op.createPost env t bo) = b := by
          simp only [applyOp, hc]
        have hrun : runOps b (Op.createPost env t bo :: rest) = runOps b rest := by
          rw [runOps_cons, happly]
        obtain ⟨hpw, hmem⟩ := ih b
        refine ⟨hpw, ?_⟩
        intro i hi
        rw [hrun]
        exact hmem i hi
    | deletePost env pid =>
      simp only [postIdsIssued]
      obtain ⟨hpw, hmem⟩ := ih (applyOp b (Op.deletePost env pid))
      refine ⟨hpw, ?_⟩
      intro i hi
      obtain ⟨hlo, hhi⟩ := hmem i hi
      exact ⟨Nat.le_trans (applyOp_next_post_id_le b _) hlo, hhi⟩
    | addComment env pid s =>
      simp only [postIdsIssued]
      obtain ⟨hpw, hmem⟩ := ih (applyOp b (Op.addComment env pid s))
      refine ⟨hpw, ?_⟩
      intro i hi
      obtain ⟨hlo, hhi⟩ := hmem i hi
      exact ⟨Nat.le_trans (applyOp_next_post_id_le b _) hlo, hhi⟩
    | deleteComment env pid cid =>
      simp only [postIdsIssued]
      obtain ⟨hpw, hmem⟩ := ih (applyOp b (Op.deleteComment env pid cid))
      refine ⟨hpw, ?_⟩
      intro i hi
      obtain ⟨hlo, hhi⟩ := hmem i hi
      exact ⟨Nat.le_trans (applyOp_next_post_id_le b _) hlo, hhi⟩
    | donateOp env pid amt m =>
      simp only [postIdsIssued]
      obtain ⟨hpw, hmem⟩ := ih (applyOp b (Op.donateOp env pid amt m))
      refine ⟨hpw, ?_⟩
      intro i hi
      obtain ⟨hlo, hhi⟩ := hmem i hi
      exact ⟨Nat.le_trans (applyOp_next_post_id_le b _) hlo, hhi⟩

/-- A present key means the map is nonempty. -/
theorem umGet_some_length {α β : Type} [DecidableEq α] {m : List (α × β)} {k : α} {v : β}
    (h : umGet m k = some v) : 0 < m.length := by
  cases m with
  | nil => exact Option.noConfusion h
  | cons hd tl => exact Nat.succ_pos _

/-- The comment count of a present post is at most the summed live comment
count. -/
theorem umGet_comments_le {m : List (Nat × Post)} {k : Nat} {p : Post}
    (h : umGet m k = some p) :
    p.comments.length ≤ (m.map (fun kv => kv.2.comments.length)).sum := by
  induction m with
  | nil => exact Option.noConfusion h
  | cons hd tl ih =>
    obtain ⟨a, v⟩ := hd
    simp only [umGet] at h
    by_cases hk : a = k
    · rw [if_pos hk] at h
      have := Option.some.inj h
      subst this
      simp only [List.map_cons, List.sum_cons]
      exact Nat.le_add_right _ _
    · rw [if_neg hk] at h
      simp only [List.map_cons, List.sum_cons]
      exact Nat.le_trans (ih h) (Nat.le_add_left _ _)

/-! ### Claim C1 -/

/-- C1 (count consistency) fails on the code: after CreatePost followed by a
valid AddComment, `total_comments` is 1 but every live post still has zero
stored comments — the pushed `Comment` went to a detached copy of the post
that was never re-inserted into the `posts` map.  So `total_comments` does
not equal the summed live comment counts. -/
theorem count_consistency_broken_by_lost_comment_write :
    (runOps (Blog.init "alice") t2).total_comments = 1 ∧
    liveCommentCount (runOps (Blog.init "alice") t2) = 0 ∧
    ¬ countConsistent (runOps (Blog.init "alice") t2) :=
  ⟨rfl, rfl, fun h => absurd h.2.1 (by decide)⟩

/-! ### Claim C2 -/

/-- C2 (AddComment postcondition) fails on the code: on the state `blogA`
holding one fresh post, AddComment with the 10-byte body "ten chars!"
succeeds and increments `total_comments` and `next_comment_id` to 1, but the
stored post's comment list remains empty (the push landed on a dropped
copy), so the post's comment count is 0, not 1. -/
theorem addComment_push_is_lost :
    (comment aliceEnv blogA 0 "ten chars!").isOk = true ∧
    (runOps (Blog.init "alice") t2).total_comments = 1 ∧
    (runOps (Blog.init "alice") t2).next_comment_id = 1 ∧
    (umGet (runOps (Blog.init "alice") t2).posts 0).map (fun p => p.comments) = some [] :=
  ⟨rfl, rfl, rfl, rfl⟩

/-! ### Claim C3 -/

/-- C3 (Donate success postcondition) fails on the code: a valid donation of
5 to post 0 returns success with a scheduled transfer to the author, but the
state it commits (`blogDon1`) has `total_donations = 0` and
`next_donation_id = 0` (the code bumps the *comment* counters instead) and
the post's `donation_logs` is still empty (the push landed on a dropped
copy); the transfer completing successfully changes nothing, because no
callback is installed. -/
theorem donate_success_records_nothing :
    donate aliceEnv blogDon 0 5 "gg" = .ok (blogDon1, { recipient := "bob", amount := 5 }) ∧
    settle_donation blogDon1 .succeeded = blogDon1 ∧
    blogDon1.total_donations = 0 ∧
    blogDon1.next_donation_id = 0 ∧
    blogDon1.total_comments = 1 ∧
    blogDon1.next_comment_id = 1 ∧
    (umGet blogDon1.posts 0).map (fun p => p.donation_logs) = some [] :=
  ⟨rfl, rfl, rfl, rfl, rfl, rfl, rfl⟩

/-! ### Claim C4 -/

/-- C4 (Donate failure atomicity) fails on the code: `save_to_donation_log`
runs synchronously while `donate` builds the promise chain, so its state
change (the comment counters) is committed before the transfer even runs,
and the empty continuation promise means a failed transfer leaves exactly
that committed state and surfaces no `TransferFailed` to anyone — the
original `donate` call already reported success. -/
theorem donate_failure_not_surfaced :
    donate aliceEnv blogDon 0 5 "gg" = .ok (blogDon1, { recipient := "bob", amount := 5 }) ∧
    settle_donation blogDon1 .failed = blogDon1 ∧
    blogDon1.total_donations = blogDon.total_donations ∧
    blogDon1.total_comments = blogDon.total_comments + 1 ∧
    blogDon1 ≠ blogDon :=
  ⟨rfl, rfl, rfl, rfl, by decide⟩

/-! ### Claim C5 -/

/-- C5: no operation ever inserts or updates an entry of `user_posts` — in
every reachable state the `user_posts` map is empty, and `get_posts`
(GetPostsByCaller) fails with `notFound` for every caller, including one who
has just created posts. -/
theorem user_posts_never_written (owner : String) (ops : List Op) (env : Env) :
    (runOps (Blog.init owner) ops).user_posts = [] ∧
    get_posts env (runOps (Blog.init owner) ops) = .error .notFound := by
  have h : (runOps (Blog.init owner) ops).user_posts = [] := by
    rw [runOps_user_posts]
    rfl
  refine ⟨h, ?_⟩
  unfold get_posts
  rw [h]
  rfl

/-! ### Claim C6 -/

/-- Helper for C6: `save_to_donation_log` can fail, but never with
`unauthorized`. -/
theorem save_to_donation_log_not_unauthorized (env : Env) (b : Blog) (pid amt : Nat) (m : String) :
    save_to_donation_log env b pid amt m ≠ .error .unauthorized := by
  intro h
  unfold save_to_donation_log at h
  repeat' split at h
  all_goals simp at h

/-- C6 counterexample: the claim "for the owner with valid targets they
succeed" is false at two concrete inputs.  (1) In the reachable state
`blogU` post 0 is live, yet the owner's `delete_post 0` traps with
`underflow`, because an earlier owner delete of the absent id 7 already drove
`total_posts` to 0.  (2) In the count-consistent state `blogC6` post 0
contains exactly the comment with `comment_id = 5`, a perfectly valid target,
yet the owner's `delete_comment 0 5` traps: `Vec::remove` uses the id 5 as a
position into the 1-element comment list. -/
theorem ownership_gate_counterexample :
    ((umGet blogU.posts 0).isSome = true ∧
     blogU.owner = oscarEnv.signer_account_id ∧
     delete_post oscarEnv blogU 0 = .error .underflow) ∧
    (blogC6.owner = oscarEnv.signer_account_id ∧
     (umGet blogC6.posts 0).map (fun p => p.comments.map (fun c => c.comment_id)) = some [5] ∧
     blogC6.total_posts = livePostCount blogC6 ∧
     blogC6.total_comments = liveCommentCount blogC6 ∧
     delete_comment oscarEnv blogC6 0 5 = .error .indexOutOfBounds) := by
  decide

/-- C6 as amended: for every caller other than the owner, DeletePost and
DeleteComment fail with `unauthorized` (an error aborts the call, leaving
state unchanged); for the owner in a count-consistent state they succeed on
valid targets, provided — for DeleteComment — the numeric `comment_id` is
also a valid position in the post's comment list; and no other operation is
restricted by ownership (none can ever fail with `unauthorized`). -/
theorem ownership_gate_amended :
    (∀ (env : Env) (b : Blog) (pid : Nat), env.signer_account_id ≠ b.owner →
       delete_post env b pid = .error .unauthorized) ∧
    (∀ (env : Env) (b : Blog) (pid cid : Nat), env.signer_account_id ≠ b.owner →
       delete_comment env b pid cid = .error .unauthorized) ∧
    (∀ (env : Env) (b : Blog) (pid : Nat) (p : Post),
       b.owner = env.signer_account_id → countConsistent b →
       umGet b.posts pid = some p →
       ∃ b', delete_post env b pid = .ok b') ∧
    (∀ (env : Env) (b : Blog) (pid cid : Nat) (p : Post) (c : Comment),
       b.owner = env.signer_account_id → countConsistent b →
       umGet b.posts pid = some p → p.post_id = pid →
       p.comments.find? (fun x => x.comment_id == cid) = some c →
       cid < p.comments.length →
       ∃ b', delete_comment env b pid cid = .ok b') ∧
    (∀ (env : Env) (b : Blog) (t bo : String),
       create_post env b t bo ≠ .error .unauthorized) ∧
    (∀ (env : Env) (b : Blog) (pid : Nat) (s : String),
       comment env b pid s ≠ .error .unauthorized) ∧
    (∀ (env : Env) (b : Blog) (pid amt : Nat) (m : String),
       donate env b pid amt m ≠ .error .unauthorized) := by
  refine ⟨?_, ?_, ?_, ?_, ?_, ?_, ?_⟩
  · intro env b pid h
    unfold delete_post
    rw [if_neg (fun he => h he.symm)]
  · intro env b pid cid h
    unfold delete_comment
    rw [if_neg (fun he => h he.symm)]
  · intro env b pid p how hcc hget
    have hpos : 0 < b.total_posts := by
      rw [hcc.1]
      exact umGet_some_length hget
    refine ⟨{ b with posts := umRemove b.posts pid, total_posts := b.total_posts - 1 }, ?_⟩
    unfold delete_post
    rw [if_pos how, if_pos hpos]
  · intro env b pid cid p c how hcc hget hpid hfind hlt
    have hcomments : 0 < p.comments.length := by
      cases hc : p.comments with
      | nil => rw [hc] at hfind; exact Option.noConfusion hfind
      | cons hd tl => exact Nat.succ_pos _
    have hpos : 0 < b.total_comments := by
      rw [hcc.2.1]
      exact Nat.lt_of_lt_of_le hcomments (umGet_comments_le hget)
    refine ⟨{ b with total_comments := b.total_comments - 1 }, ?_⟩
    simp only [delete_comment, hget, hfind]
    rw [if_pos how, if_pos hpid, if_pos hlt, if_pos hpos]
  · intro env b t bo h
    unfold create_post at h
    repeat' split at h
    all_goals simp at h
  · intro env b pid s h
    unfold comment at h
    repeat' split at h
    all_goals simp at h
  · intro env b pid amt m h
    unfold donate at h
    repeat' split at h
    all_goals try simp at h
    all_goals
      (rename_i heq
       subst h
       exact save_to_donation_log_not_unauthorized env b pid amt m heq)

/-- C6 witness: every hypothesis of the amended theorem is satisfiable — the
non-owner `bob` is rejected with `unauthorized` on both deletes, and the
owner `oscar` succeeds on the valid in-range targets of `blogW`. -/
theorem ownership_gate_amended_witness :
    delete_post bobEnv blogW 0 = .error .unauthorized ∧
    delete_comment bobEnv blogW 0 0 = .error .unauthorized ∧
    (∃ b', delete_post oscarEnv blogW 0 = .ok b') ∧
    (∃ b', delete_comment oscarEnv blogW 0 0 = .ok b') :=
  ⟨ownership_gate_amended.1 bobEnv blogW 0 (by decide),
   ownership_gate_amended.2.1 bobEnv blogW 0 0 (by decide),
   ownership_gate_amended.2.2.1 oscarEnv blogW 0 postW rfl ⟨rfl, rfl, rfl⟩ rfl,
   ownership_gate_amended.2.2.2.1 oscarEnv blogW 0 0 postW comW rfl ⟨rfl, rfl, rfl⟩ rfl rfl rfl
     (by decide)⟩

/-! ### Claim C7 -/

/-- C7 (DeleteComment contract) fails on the code: in the count-consistent
state `blogDel`, post 0 holds the comments with ids 0 and 1 and the owner
calls `delete_comment 0 0`.  The call succeeds and decrements
`total_comments` to 1, but the stored post still holds both comments: the
positional `Vec::remove` acted on the detached copy returned by
`UnorderedMap::get`, which was dropped without being written back, so no
element is actually removed from the post's comment sequence. -/
theorem delete_comment_removes_nothing :
    delete_comment oscarEnv blogDel 0 0 = .ok blogDel1 ∧
    (umGet blogDel1.posts 0).map (fun p => p.comments.map (fun c => c.comment_id)) =
      some [0, 1] ∧
    blogDel.total_comments = 2 ∧
    blogDel1.total_comments = 1 := by
  decide

/-! ### Claim C8 -/

/-- C8: starting from a fresh contract, the post ids issued by the
successful CreatePost calls of any trace — DeletePost and the other
operations freely interleaved — are strictly increasing (hence never
repeat), and `next_post_id` stays strictly greater than every id ever
issued. -/
theorem post_id_monotonicity (owner : String) (ops : List Op) :
    (postIdsIssued (Blog.init owner) ops).Pairwise (· < ·) ∧
    ∀ i ∈ postIdsIssued (Blog.init owner) ops,
      i < (runOps (Blog.init owner) ops).next_post_id :=
  ⟨(postIdsIssued_bounds ops (Blog.init owner)).1,
   fun i hi => ((postIdsIssued_bounds ops (Blog.init owner)).2 i hi).2⟩

/-- C8 witness: on the create–delete–create trace `t8` the issued ids are
pairwise increasing and the issued id 1 is below the final `next_post_id`. -/
theorem post_id_monotonicity_witness :
    (postIdsIssued (Blog.init "alice") t8).Pairwise (· < ·) ∧
    1 < (runOps (Blog.init "alice") t8).next_post_id :=
  ⟨(post_id_monotonicity "alice" t8).1,
   (post_id_monotonicity "alice" t8).2 1 (by decide)⟩

/-! ### Claim C9 -/

/-- C9: for every existing post (present key whose stored `post_id` matches),
AddComment with a 9-byte body fails with `validationError`; with a body of
at least 10 bytes (in particular exactly 10) it succeeds, provided the two
`u64` comment counters do not overflow; and a body shorter than 10 bytes
never yields a success, so it never changes any state (an error aborts the
call). -/
theorem comment_length_validation :
    (∀ (env : Env) (b : Blog) (pid : Nat) (p : Post),
       umGet b.posts pid = some p → p.post_id = pid →
       ∀ s : String, s.utf8ByteSize = 9 →
         comment env b pid s = .error .validationError) ∧
    (∀ (env : Env) (b : Blog) (pid : Nat) (p : Post),
       umGet b.posts pid = some p → p.post_id = pid →
       b.next_comment_id + 1 < U64_MOD → b.total_comments + 1 < U64_MOD →
       ∀ s : String, 10 ≤ s.utf8ByteSize →
         comment env b pid s =
           .ok { b with
                 next_comment_id := b.next_comment_id + 1
                 total_comments := b.total_comments + 1 }) ∧
    (∀ (env : Env) (b : Blog) (pid : Nat) (s : String), s.utf8ByteSize < 10 →
       (comment env b pid s).isOk = false) := by
  refine ⟨?_, ?_, ?_⟩
  · intro env b pid p hget hpid s hlen
    simp only [comment, hget]
    rw [if_pos hpid, if_neg (by omega)]
  · intro env b pid p hget hpid h1 h2 s hlen
    simp only [comment, hget]
    rw [if_pos hpid, if_pos hlen, if_pos h1, if_pos h2]
  · intro env b pid s hlen
    unfold comment
    split
    · rfl
    · split
      · rw [if_neg (by omega)]
        rfl
      · rfl

/-- C9 witness: on `blogW`, the 9-byte body is rejected with
`validationError`, the 10-byte body "ten chars!" succeeds, and a 5-byte body
yields no success. -/
theorem comment_length_validation_witness :
    comment aliceEnv blogW 0 "123456789" = .error .validationError ∧
    comment aliceEnv blogW 0 "ten chars!" =
      .ok { blogW with
            next_comment_id := blogW.next_comment_id + 1
            total_comments := blogW.total_comments + 1 } ∧
    (comment aliceEnv blogW 0 "short").isOk = false :=
  ⟨comment_length_validation.1 aliceEnv blogW 0 postW rfl rfl "123456789" (by decide),
   comment_length_validation.2.1 aliceEnv blogW 0 postW rfl rfl (by decide) (by decide)
     "ten chars!" (by decide),
   comment_length_validation.2.2 aliceEnv blogW 0 "short" (by decide)⟩

/-! ### Claim C10 -/

/-- C10 counterexample: `alice` attaches no deposit (`attached_deposit = 0`)
but donates `amount = 5` to post 0; the claim demands `insufficientFunds`
(attached value below amount), yet the call succeeds because the code only
checks the contract account's balance (100 ≥ 5), never the attached value. -/
theorem donate_balance_check_counterexample :
    aliceEnv.attached_deposit < 5 ∧
    5 ≤ aliceEnv.account_balance ∧
    (donate aliceEnv blogDon 0 5 "gg").isOk = true := by
  decide

/-- C10 as amended: Donate fails with `notFound` when the target post is
absent, with `validationError` when `amount < 1`, and with
`insufficientFunds` when the *contract account's balance* (not the attached
value) is below `amount`, in that order; an error result aborts the call, so
no transfer is initiated and no state changes. -/
theorem donate_validation_amended :
    (∀ (env : Env) (b : Blog) (pid amt : Nat) (m : String),
       umGet b.posts pid = none →
       donate env b pid amt m = .error .notFound) ∧
    (∀ (env : Env) (b : Blog) (pid amt : Nat) (m : String) (p : Post),
       umGet b.posts pid = some p → p.post_id = pid →
       amt < 1 →
       donate env b pid amt m = .error .validationError) ∧
    (∀ (env : Env) (b : Blog) (pid amt : Nat) (m : String) (p : Post),
       umGet b.posts pid = some p → p.post_id = pid →
       1 ≤ amt → env.account_balance < amt →
       donate env b pid amt m = .error .insufficientFunds) := by
  refine ⟨?_, ?_, ?_⟩
  · intro env b pid amt m hget
    simp only [donate, hget]
  · intro env b pid amt m p hget hpid hamt
    simp only [donate, hget]
    rw [if_pos hpid, if_neg (by omega)]
  · intro env b pid amt m p hget hpid hamt hbal
    simp only [donate, hget]
    rw [if_pos hpid, if_pos hamt, if_neg (by omega)]

/-- C10 witness: all three rejection branches fire on concrete inputs — the
absent post 99, a zero amount, and an amount exceeding the contract
balance. -/
theorem donate_validation_amended_witness :
    donate aliceEnv blogDon 99 5 "gg" = .error .notFound ∧
    donate aliceEnv blogDon 0 0 "gg" = .error .validationError ∧
    donate aliceEnv blogDon 0 500 "gg" = .error .insufficientFunds :=
  ⟨donate_validation_amended.1 aliceEnv blogDon 99 5 "gg" rfl,
   donate_validation_amended.2.1 aliceEnv blogDon 0 0 "gg" postBob rfl rfl (by decide),
   donate_validation_amended.2.2 aliceEnv blogDon 0 500 "gg" postBob rfl rfl (by decide)
     (by decide)⟩
